import Mathlib

/-!
Verification of the miredo core (src/ipv6-tunnel.cpp, src/miredo.cpp)
against its natural-language specification.

Shallow embedding conventions:
* Machine bytes are `Nat` values below 256; buffers and frames are `List Nat`.
* File descriptors are `Int`; the value `-1` marks an invalid descriptor,
  exactly as in the C source.
* Kernel interactions (socket creation, ioctls, read, write) are modelled by
  explicit environment parameters giving the kernel's answer, and each
  operation additionally returns the trace of kernel calls it issued, so that
  "no ioctl was issued" is a provable statement.
* The handcrafted constant `L2_PROTO_IPV6` is `0x86dd` on big-endian builds
  and `0xdd86` on little-endian builds; in both cases the two bytes that
  `memcpy` places at offsets 2-3 of the frame are `0x86` then `0xdd`
  (network byte order in memory).  The embedding therefore works at the byte
  level: the ethertype field matches IPv6 iff byte 2 is `0x86` and byte 3 is
  `0xdd`.
-/

/-- The two octets of the IPv6 ethertype as they appear in memory at frame
offsets 2 and 3, on either endianness (see the note above). -/
def l2ProtoIPv6Byte0 : Nat := 0x86

/-- Second octet of the IPv6 ethertype encoding. -/
def l2ProtoIPv6Byte1 : Nat := 0xdd

/-- Kernel-call trace entries for the tunnel configuration operations. -/
inductive Ioctl
  | getFlags
  | setFlags (flags : Nat)
  | setMtu (mtu : Int)
  | getIndex
  | setAddr (addr : List Nat) (prefixLen : Int)
deriving DecidableEq, Repr

/-- Log lines emitted by the tunnel device operations (only the ones the
claims talk about are distinguished). -/
inductive TunLog
  | stackUnavailable        -- socket(PF_INET6, ...) failed
  | flagsError              -- SIOCGIFFLAGS / SIOCSIFFLAGS failed
  | prefixTooLong           -- SetAddress: prefix length > 128
  | mtuTooSmall             -- SetMTU: mtu < 1280  (InvalidArgument)
  | mtuTooBig               -- SetMTU: mtu > 65535 (InvalidArgument)
  | mtuIoctlError           -- SIOCSIFMTU failed
  | truncated (len : Nat)   -- "Packet truncated to %u byte(s)"
  | writeError              -- "Cannot send packet to tunnel: %m"
deriving DecidableEq, Repr

/-- Kernel environment: the answers the kernel would give to the calls an
operation may issue.  `socketOk` is whether `socket (PF_INET6, SOCK_DGRAM, 0)`
succeeds; the other fields are the outcomes of the individual ioctls. -/
structure NetEnv where
  socketOk : Bool
  ifFlags : Nat        -- flags returned by SIOCGIFFLAGS
  getFlagsOk : Bool
  setFlagsOk : Bool
  setMtuOk : Bool
  getIndexOk : Bool
  setAddrOk : Bool
deriving Repr

/-- Result of a tunnel configuration operation: the C return value, the
number of control sockets acquired, the ioctl trace, and the log lines. -/
structure OpResult where
  ret : Int
  sockets : Nat
  ioctls : List Ioctl
  logs : List TunLog
deriving DecidableEq, Repr

/-! ### Interface flag constants (from <net/if.h>, Linux values) -/

def IFF_UP : Nat := 0x1
def IFF_BROADCAST : Nat := 0x2
def IFF_POINTOPOINT : Nat := 0x10
def IFF_RUNNING : Nat := 0x40
def IFF_NOARP : Nat := 0x80
def IFF_MULTICAST : Nat := 0x1000

/-- All-ones mask of the 16-bit `ifr_flags` field; `m ^^^ flagWord16` is the
16-bit complement `~m` used by the `&= ~...` operations in the source. -/
def flagWord16 : Nat := 0xffff

/-- The flags transformation in `IPv6Tunnel::SetState` (ipv6-tunnel.cpp,
lines 142-147): starting from the flags read by SIOCGIFFLAGS, it sets
`IFF_POINTOPOINT | IFF_NOARP`, then sets `IFF_UP | IFF_RUNNING` when `up`
and clears only `IFF_UP` when not `up`, and finally clears
`IFF_MULTICAST | IFF_BROADCAST`. -/
def setStateFlags (oldFlags : Nat) (up : Bool) : Nat :=
  let f := oldFlags ||| (IFF_POINTOPOINT ||| IFF_NOARP)
  let f := if up then f ||| (IFF_UP ||| IFF_RUNNING)
           else f &&& (flagWord16 ^^^ IFF_UP)
  f &&& (flagWord16 ^^^ (IFF_MULTICAST ||| IFF_BROADCAST))

/-- `IPv6Tunnel::SetState` (ipv6-tunnel.cpp, lines 119-159).  Returns -1
without any kernel call when the handle is invalid; otherwise acquires a
control socket, reads the flags, writes the transformed flags back. -/
def setState (fd : Int) (up : Bool) (env : NetEnv) : OpResult :=
  if fd = -1 then ⟨-1, 0, [], []⟩
  else if env.socketOk = false then ⟨-1, 1, [], [TunLog.stackUnavailable]⟩
  else if env.getFlagsOk = false then ⟨-1, 1, [Ioctl.getFlags], [TunLog.flagsError]⟩
  else
    let newFlags := setStateFlags env.ifFlags up
    if env.setFlagsOk then ⟨0, 1, [Ioctl.getFlags, Ioctl.setFlags newFlags], []⟩
    else ⟨-1, 1, [Ioctl.getFlags, Ioctl.setFlags newFlags], [TunLog.flagsError]⟩

/-- `IPv6Tunnel::SetAddress` (ipv6-tunnel.cpp, lines 162-204). -/
def setAddress (fd : Int) (addr : List Nat) (prefixLen : Int) (env : NetEnv) :
    OpResult :=
  if fd = -1 ∨ prefixLen < 0 then ⟨-1, 0, [], []⟩
  else if prefixLen > 128 then ⟨-1, 0, [], [TunLog.prefixTooLong]⟩
  else if env.socketOk = false then ⟨-1, 1, [], [TunLog.stackUnavailable]⟩
  else if env.getIndexOk then
    if env.setAddrOk then
      ⟨0, 1, [Ioctl.getIndex, Ioctl.setAddr addr prefixLen], []⟩
    else
      ⟨-1, 1, [Ioctl.getIndex, Ioctl.setAddr addr prefixLen], []⟩
  else ⟨-1, 1, [Ioctl.getIndex], []⟩

/-- `IPv6Tunnel::SetMTU` (ipv6-tunnel.cpp, lines 207-242).  The two range
checks come before any socket or ioctl call; the logs `mtuTooSmall` and
`mtuTooBig` are the InvalidArgument failures of the specification. -/
def setMTU (fd : Int) (mtu : Int) (env : NetEnv) : OpResult :=
  if fd = -1 then ⟨-1, 0, [], []⟩
  else if mtu < 1280 then ⟨-1, 0, [], [TunLog.mtuTooSmall]⟩
  else if mtu > 65535 then ⟨-1, 0, [], [TunLog.mtuTooBig]⟩
  else if env.socketOk = false then ⟨-1, 1, [], [TunLog.stackUnavailable]⟩
  else if env.setMtuOk then ⟨0, 1, [Ioctl.setMtu mtu], []⟩
  else ⟨-1, 1, [Ioctl.setMtu mtu], [TunLog.mtuIoctlError]⟩

/-- `IPv6Tunnel::RegisterReadSet` (ipv6-tunnel.cpp, lines 247-253): adds the
descriptor to the readiness set (FD_SET) when it is valid and returns it. -/
def registerReadSet (fd : Int) (readset : List Int) : List Int × Int :=
  if fd ≠ -1 then (readset.insert fd, fd) else (readset, fd)

/-! ### ReceivePacket -/

/-- The persistent per-handle read state: the frame buffer `pbuf` (65539
octets in the C object, one maximum IPv6 packet plus the 4-octet frame
header; the embedding keeps it as a list of its octets) and the stored
length `plen`. -/
structure TunnelBuf where
  pbuf : List Nat
  plen : Nat
deriving DecidableEq, Repr

/-- A `read` into the buffer overwrites its first `frame.length` octets and
leaves the rest of the buffer as it was (stale data from earlier reads). -/
def overwriteBuf (old frame : List Nat) : List Nat :=
  frame ++ old.drop frame.length

/-- `IPv6Tunnel::ReceivePacket` (ipv6-tunnel.cpp, lines 256-274).
`ready` is `FD_ISSET (fd, readset)`; `readRes` is the kernel's answer to the
`read` call (`none` = read error, `some frame` = the frame read).  The
returned `Bool` records whether a `read` was performed at all.
After a successful read the code stores the length in `plen`, then compares
the two octets at buffer offsets 2-3 with the IPv6 ethertype; it performs no
check that the frame itself is at least 4 octets long. -/
def receivePacket (fd : Int) (t : TunnelBuf) (ready : Bool)
    (readRes : Option (List Nat)) : TunnelBuf × Int × Bool :=
  if fd = -1 ∨ ready = false then (t, -1, false)
  else
    match readRes with
    | none => (t, -1, true)
    | some frame =>
      let buf := overwriteBuf t.pbuf frame
      let t := TunnelBuf.mk buf frame.length
      if buf.get? 2 = some l2ProtoIPv6Byte0 ∧ buf.get? 3 = some l2ProtoIPv6Byte1
      then (t, 0, true)
      else (t, -1, true)

/-! ### SendPacket -/

/-- `IPv6Tunnel::SendPacket` (ipv6-tunnel.cpp, lines 277-301).
`writeRet` is the return value of the single `write` call (issued only when
the guard passes).  Returns the C return value, the buffer handed to `write`
(`none` when no write was issued), and the log lines.  The source tests
`(int)len == -1` — where `len` is the frame length, not the write's return
value — to decide between the write-error log and the truncation log. -/
def sendPacket (fd : Int) (packet : List Nat) (writeRet : Int) :
    Int × Option (List Nat) × List TunLog :=
  if fd ≠ -1 ∧ packet.length ≤ 65535 then
    let frame := [0, 0, l2ProtoIPv6Byte0, l2ProtoIPv6Byte1] ++ packet
    let len := packet.length + 4
    if writeRet = (len : Int) then (0, some frame, [])
    else if (len : Int) = -1 then (-1, some frame, [TunLog.writeError])
    else (-1, some frame, [TunLog.truncated len])
  else (-1, none, [])

/-! ### Theorems for the tunnel device claims -/

/-- C2: SendPacket rejects payloads longer than 65535 octets without writing;
for payloads of at most 65535 octets the (single) frame written is exactly
`len + 4` octets: two zero flag octets, the two octets of the platform's
IPv6 ethertype encoding, then the payload unchanged. -/
theorem C2_sendPacket_frame (fd : Int) (packet : List Nat) (writeRet : Int)
    (hfd : fd ≠ -1) :
    (packet.length > 65535 →
      sendPacket fd packet writeRet = (-1, none, [])) ∧
    (packet.length ≤ 65535 →
      (sendPacket fd packet writeRet).2.1 =
        some ([0, 0, l2ProtoIPv6Byte0, l2ProtoIPv6Byte1] ++ packet) ∧
      ∀ frame, (sendPacket fd packet writeRet).2.1 = some frame →
        frame.length = packet.length + 4 ∧
        frame.get? 0 = some 0 ∧ frame.get? 1 = some 0 ∧
        frame.get? 2 = some l2ProtoIPv6Byte0 ∧
        frame.get? 3 = some l2ProtoIPv6Byte1 ∧
        frame.drop 4 = packet) := by
  constructor
  · intro hlong
    have : ¬ (fd ≠ -1 ∧ packet.length ≤ 65535) := by
      intro h
      exact absurd h.2 (by omega)
    simp only [sendPacket, if_neg this]
  · intro hlen
    have hguard : fd ≠ -1 ∧ packet.length ≤ 65535 := ⟨hfd, hlen⟩
    simp only [sendPacket, if_pos hguard]
    by_cases hw : writeRet = ((packet.length + 4 : Nat) : Int)
    · simp only [if_pos hw]
      refine ⟨by simp, ?_⟩
      rintro frame hframe
      obtain rfl : [0, 0, l2ProtoIPv6Byte0, l2ProtoIPv6Byte1] ++ packet = frame :=
        Option.some.inj hframe
      refine ⟨by simp [List.length_append], rfl, rfl, rfl, rfl, rfl⟩
    · simp only [if_neg hw]
      by_cases hneg : ((packet.length + 4 : Nat) : Int) = -1
      · exact absurd hneg (by omega)
      · simp only [if_neg hneg]
        refine ⟨by simp, ?_⟩
        rintro frame hframe
        obtain rfl : [0, 0, l2ProtoIPv6Byte0, l2ProtoIPv6Byte1] ++ packet = frame :=
          Option.some.inj hframe
        refine ⟨by simp [List.length_append], rfl, rfl, rfl, rfl, rfl⟩

/-- Witness for C2 at a concrete payload. -/
theorem C2_sendPacket_frame_witness :
    (sendPacket 7 [1, 2, 3] 7).2.1 = some [0, 0, 0x86, 0xdd, 1, 2, 3] :=
  ((C2_sendPacket_frame 7 [1, 2, 3] 7 (by decide)).2 (by decide)).1

/-- C3: with a valid handle and a cooperative kernel, SetMTU succeeds iff
`1280 ≤ m ≤ 65535`; outside that range it fails with the InvalidArgument
log (`mtuTooSmall` / `mtuTooBig`) before acquiring any socket and before
issuing any ioctl. -/
theorem C3_setMTU_range (fd mtu : Int) (env : NetEnv) (hfd : fd ≠ -1)
    (hsock : env.socketOk = true) (hioctl : env.setMtuOk = true) :
    ((setMTU fd mtu env).ret = 0 ↔ 1280 ≤ mtu ∧ mtu ≤ 65535) ∧
    (¬ (1280 ≤ mtu ∧ mtu ≤ 65535) →
      (setMTU fd mtu env).ret = -1 ∧
      (setMTU fd mtu env).sockets = 0 ∧
      (setMTU fd mtu env).ioctls = [] ∧
      ((setMTU fd mtu env).logs = [TunLog.mtuTooSmall] ∨
       (setMTU fd mtu env).logs = [TunLog.mtuTooBig])) := by
  have hfd' : ¬ (fd = -1) := hfd
  by_cases hlo : mtu < 1280
  · simp only [setMTU, if_neg hfd', if_pos hlo]
    refine ⟨by constructor <;> intro h <;> [exact absurd h (by decide); omega], ?_⟩
    intro _
    exact ⟨trivial, trivial, trivial, Or.inl trivial⟩
  · by_cases hhi : mtu > 65535
    · simp only [setMTU, if_neg hfd', if_neg hlo, if_pos hhi]
      refine ⟨by constructor <;> intro h <;> [exact absurd h (by decide); omega], ?_⟩
      intro _
      exact ⟨trivial, trivial, trivial, Or.inr trivial⟩
    · have hrange : 1280 ≤ mtu ∧ mtu ≤ 65535 := by omega
      simp only [setMTU, if_neg hfd', if_neg hlo, if_neg hhi, hsock]
      simp only [hioctl]
      refine ⟨by simpa using hrange, ?_⟩
      intro h
      exact absurd hrange h

/-- Witness for C3 at concrete inputs. -/
theorem C3_setMTU_range_witness :
    (setMTU 5 1400 ⟨true, 0, true, true, true, true, true⟩).ret = 0 :=
  (C3_setMTU_range 5 1400 ⟨true, 0, true, true, true, true, true⟩
    (by decide) rfl rfl).1.mpr (by decide)

/-- C8 counterexample: when the flags read from the kernel contain
`IFF_RUNNING` and `up` is false, the flags written back still contain
`IFF_RUNNING` — the source only clears `IFF_UP` on the way down — whereas
the claim requires `RUNNING` to be cleared. -/
theorem C8_counterexample :
    ¬ ((setStateFlags IFF_RUNNING false).testBit 6 = false) := by decide

/-- C8 amended: on every successful `SetState (up)` call, the flags written
back have `POINTOPOINT` (bit 4) and `NOARP` (bit 7) set, `MULTICAST`
(bit 12) and `BROADCAST` (bit 1) cleared; `UP` (bit 0) equals `up`; and
`RUNNING` (bit 6) is set when `up` is true but merely left at its previous
value when `up` is false. -/
theorem C8_setState_flags (fd : Int) (up : Bool) (env : NetEnv)
    (hfd : fd ≠ -1) (hs : env.socketOk = true) (hg : env.getFlagsOk = true)
    (hw : env.setFlagsOk = true) :
    (setState fd up env).ret = 0 ∧
    (setState fd up env).ioctls =
      [Ioctl.getFlags, Ioctl.setFlags (setStateFlags env.ifFlags up)] ∧
    ((setStateFlags env.ifFlags up).testBit 4 = true ∧
     (setStateFlags env.ifFlags up).testBit 7 = true ∧
     (setStateFlags env.ifFlags up).testBit 12 = false ∧
     (setStateFlags env.ifFlags up).testBit 1 = false ∧
     (setStateFlags env.ifFlags up).testBit 0 = up ∧
     (setStateFlags env.ifFlags up).testBit 6 = (up || env.ifFlags.testBit 6)) := by
  have hfd' : ¬ (fd = -1) := hfd
  refine ⟨?_, ?_, ?_⟩
  · simp [setState, hfd', hs, hg, hw]
  · simp [setState, hfd', hs, hg, hw]
  · have a0 : Nat.testBit 144 0 = false := by decide
    have a1 : Nat.testBit 144 1 = false := by decide
    have a4 : Nat.testBit 144 4 = true := by decide
    have a6 : Nat.testBit 144 6 = false := by decide
    have a7 : Nat.testBit 144 7 = true := by decide
    have a12 : Nat.testBit 144 12 = false := by decide
    have b0 : Nat.testBit 65 0 = true := by decide
    have b1 : Nat.testBit 65 1 = false := by decide
    have b4 : Nat.testBit 65 4 = false := by decide
    have b6 : Nat.testBit 65 6 = true := by decide
    have b7 : Nat.testBit 65 7 = false := by decide
    have b12 : Nat.testBit 65 12 = false := by decide
    have c0 : Nat.testBit 65534 0 = false := by decide
    have c1 : Nat.testBit 65534 1 = true := by decide
    have c4 : Nat.testBit 65534 4 = true := by decide
    have c6 : Nat.testBit 65534 6 = true := by decide
    have c7 : Nat.testBit 65534 7 = true := by decide
    have c12 : Nat.testBit 65534 12 = true := by decide
    have d0 : Nat.testBit 61437 0 = true := by decide
    have d1 : Nat.testBit 61437 1 = false := by decide
    have d4 : Nat.testBit 61437 4 = true := by decide
    have d6 : Nat.testBit 61437 6 = true := by decide
    have d7 : Nat.testBit 61437 7 = true := by decide
    have d12 : Nat.testBit 61437 12 = false := by decide
    cases up <;>
      simp [setStateFlags, IFF_UP, IFF_BROADCAST, IFF_POINTOPOINT, IFF_RUNNING,
        IFF_NOARP, IFF_MULTICAST, flagWord16, Nat.testBit_lor, Nat.testBit_land,
        Nat.testBit_xor, a0, a1, a4, a6, a7, a12, b0, b1, b4, b6, b7, b12,
        c0, c1, c4, c6, c7, c12, d0, d1, d4, d6, d7, d12]

/-- Witness for C8 at a concrete call. -/
theorem C8_setState_flags_witness :
    (setState 5 true ⟨true, 0x40, true, true, true, true, true⟩).ret = 0 :=
  (C8_setState_flags 5 true ⟨true, 0x40, true, true, true, true, true⟩
    (by decide) rfl rfl rfl).1

/-- C10: every operation called on a handle whose open failed (descriptor
-1) fails with -1 immediately: no control socket is acquired, no ioctl is
issued, no read or write is performed, and `RegisterReadSet` leaves the
readiness set unchanged and returns -1. -/
theorem C10_invalid_handle (up : Bool) (env : NetEnv) (addr : List Nat)
    (prefixLen mtu : Int) (packet : List Nat) (writeRet : Int)
    (t : TunnelBuf) (ready : Bool) (readRes : Option (List Nat))
    (readset : List Int) :
    setState (-1) up env = ⟨-1, 0, [], []⟩ ∧
    setAddress (-1) addr prefixLen env = ⟨-1, 0, [], []⟩ ∧
    setMTU (-1) mtu env = ⟨-1, 0, [], []⟩ ∧
    receivePacket (-1) t ready readRes = (t, -1, false) ∧
    sendPacket (-1) packet writeRet = (-1, none, []) ∧
    registerReadSet (-1) readset = (readset, -1) := by
  refine ⟨?_, ?_, ?_, ?_, ?_, ?_⟩
  · simp [setState]
  · simp [setAddress]
  · simp [setMTU]
  · simp [receivePacket]
  · simp [sendPacket]
  · simp [registerReadSet]

/-- C9: when the single `write` itself fails (returns -1), the source still
logs the truncation message, not the distinct write-error message: the test
that is meant to distinguish the two cases compares the frame length
(`(int)len`, here 7) with -1 instead of the write's return value, so the
write-error branch is unreachable.  Concretely, for a valid handle, payload
`[1, 2, 3]` and a `write` that returns -1, the call returns failure but logs
`truncated 7`. -/
theorem C9_write_error_logged_as_truncation :
    sendPacket 5 [1, 2, 3] (-1) =
      (-1, some [0, 0, 0x86, 0xdd, 1, 2, 3], [TunLog.truncated 7]) := by decide

/-- A valid 8-octet IPv6 frame (flags 0, ethertype IPv6, 4 payload octets). -/
def c1Frame1 : List Nat := [0, 0, 0x86, 0xdd, 96, 0, 0, 0]

/-- A 2-octet frame: shorter than the 4-octet frame header. -/
def c1Frame2 : List Nat := [0, 0]

/-- A freshly zeroed tunnel read buffer (65539 octets, as in the C object). -/
def c1Start : TunnelBuf := ⟨List.replicate 65539 0, 0⟩

/-- C1: the source has no check that the frame read is at least 4 octets
long; it compares the two octets at buffer offsets 2-3, which a short read
leaves holding stale data from the previous frame.  Concretely: after a
valid IPv6 frame is received (first call returns success), a subsequent
2-octet frame — shorter than 4 octets, so the claim requires Empty — is
also accepted (the second call returns 0, i.e. a packet is reported). -/
theorem C1_short_frame_accepted :
    (receivePacket 5 c1Start true (some c1Frame1)).2.1 = 0 ∧
    c1Frame2.length < 4 ∧
    (receivePacket 5 (receivePacket 5 c1Start true (some c1Frame1)).1 true
        (some c1Frame2)).2.1 = 0 := by
  have hb2 : (overwriteBuf c1Start.pbuf c1Frame1)[2]? = some 0x86 := by
    unfold overwriteBuf
    rw [List.getElem?_append_left (by decide)]
    rfl
  have hb3 : (overwriteBuf c1Start.pbuf c1Frame1)[3]? = some 0xdd := by
    unfold overwriteBuf
    rw [List.getElem?_append_left (by decide)]
    rfl
  have hstep1 : receivePacket 5 c1Start true (some c1Frame1) =
      (⟨overwriteBuf c1Start.pbuf c1Frame1, c1Frame1.length⟩, 0, true) := by
    simp [receivePacket, hb2, hb3, l2ProtoIPv6Byte0, l2ProtoIPv6Byte1]
  have hc2 : (overwriteBuf (overwriteBuf c1Start.pbuf c1Frame1) c1Frame2)[2]? =
      some 0x86 := by
    unfold overwriteBuf
    rw [List.getElem?_append_right (by decide)]
    simpa [c1Frame2, List.getElem?_drop] using hb2
  have hc3 : (overwriteBuf (overwriteBuf c1Start.pbuf c1Frame1) c1Frame2)[3]? =
      some 0xdd := by
    unfold overwriteBuf
    rw [List.getElem?_append_right (by decide)]
    simpa [c1Frame2, List.getElem?_drop] using hb3
  refine ⟨by rw [hstep1], by decide, ?_⟩
  rw [hstep1]
  simp [receivePacket, hc2, hc3, l2ProtoIPv6Byte0, l2ProtoIPv6Byte1]

/-! ### Event loop (miredo.cpp, teredo_server_relay, lines 122-199) -/

/-- The `select` timeout set at the top of every iteration
(`tv.tv_sec = 0; tv.tv_usec = 250000`): 250 ms. -/
def tickTimeout : Int × Int := (0, 250000)

/-- The loop-exit test after `select` (miredo.cpp, lines 166-170):
`(maxfd < 0) || ((maxfd >= 1) && FD_ISSET (signalfd[0], &readset))`.
`selectRet` is the value returned by `select`; `signalReady` is
`FD_ISSET (signalfd[0], &readset)` after the call. -/
def loopExits (selectRet : Int) (signalReady : Bool) : Bool :=
  decide (selectRet < 0) || (decide (1 ≤ selectRet) && signalReady)

/-- The observable calls made by one loop body (miredo.cpp, lines 172-197). -/
inductive Ev
  | serverProcessPacket
  | relayProcess
  | tunnelReceivePacket
  | relaySendPacket
  | relayReceivePacket
deriving DecidableEq, Repr

/-- The sequence of calls issued by the loop body once the exit test has
failed: server processing (if a server exists), then — if a relay exists —
`relay->Process ()`, `tunnel.ReceivePacket`, `relay->SendPacket` when the
tunnel read returned a positive length, and finally `relay->ReceivePacket`. -/
def tickBody (hasServer hasRelay : Bool) (tunLen : Int) : List Ev :=
  (if hasServer then [Ev.serverProcessPacket] else []) ++
  (if hasRelay then
    [Ev.relayProcess, Ev.tunnelReceivePacket] ++
    (if tunLen > 0 then [Ev.relaySendPacket] else []) ++
    [Ev.relayReceivePacket]
   else [])

/-- One full iteration of the event loop: the exit test, then (when the loop
does not exit) the body.  Returns whether the loop exits and the trace of
body calls. -/
def tick (selectRet : Int) (signalReady hasServer hasRelay : Bool)
    (tunLen : Int) : Bool × List Ev :=
  if loopExits selectRet signalReady then (true, [])
  else (false, tickBody hasServer hasRelay tunLen)

/-- C5 counterexample: when `select` fails (returns -1) while the
signal-bridge read end is not ready, the loop exits anyway, so "the loop
exits if and only if the signal-bridge read end is ready" is false at this
input (the claim requires no exit here). -/
theorem C5_counterexample : ¬ (loopExits (-1) false = false) := by decide

/-- C5 amended: every iteration gives the wait primitive a 250 ms timeout;
assuming the readiness flag is only set when `select` reported at least one
ready descriptor, the loop exits iff `select` failed or the signal bridge is
ready; and the exit decision is exactly the post-`select` test — nothing in
the loop body cancels the loop. -/
theorem C5_loop_exit (selectRet : Int) (signalReady hasServer hasRelay : Bool)
    (tunLen : Int) (h : signalReady = true → 1 ≤ selectRet) :
    tickTimeout = (0, 250000) ∧
    ((tick selectRet signalReady hasServer hasRelay tunLen).1 = true ↔
      (selectRet < 0 ∨ signalReady = true)) ∧
    (tick selectRet signalReady hasServer hasRelay tunLen).1 =
      loopExits selectRet signalReady := by
  have hfst : (tick selectRet signalReady hasServer hasRelay tunLen).1 =
      loopExits selectRet signalReady := by
    unfold tick
    by_cases hb : loopExits selectRet signalReady = true
    · rw [if_pos hb, hb]
    · rw [if_neg hb]
      exact (Bool.not_eq_true _ ▸ hb : loopExits selectRet signalReady = false).symm
  refine ⟨rfl, ?_, hfst⟩
  rw [hfst]
  unfold loopExits
  constructor
  · intro hex
    rcases Bool.or_eq_true_iff.mp hex with h1 | h2
    · exact Or.inl (of_decide_eq_true h1)
    · exact Or.inr (Bool.and_eq_true_iff.mp h2).2
  · rintro (h1 | h2)
    · exact Bool.or_eq_true_iff.mpr (Or.inl (decide_eq_true h1))
    · exact Bool.or_eq_true_iff.mpr
        (Or.inr (Bool.and_eq_true_iff.mpr ⟨decide_eq_true (h h2), h2⟩))

/-- Witness for C5 amended at a concrete iteration. -/
theorem C5_loop_exit_witness :
    (tick (-1) false true true 0).1 = true :=
  ((C5_loop_exit (-1) false true true 0 (by intro h; cases h)).2.1).mpr
    (Or.inl (by decide))

/-- C6: in a tick where the signal bridge is not ready (and `select` did not
fail), the loop body runs, and in its trace: the server's `ProcessPacket`
(when a server exists) comes before every relay call; within the relay path,
`Process ()` comes before the outbound forwarding (`tunnel.ReceivePacket`,
then `relay->SendPacket` when the tunnel read returned data), which comes
before the inbound `relay->ReceivePacket`. -/
theorem C6_tick_ordering (selectRet : Int) (hasServer hasRelay : Bool)
    (tunLen : Int) (hsel : 0 ≤ selectRet) :
    (tick selectRet false hasServer hasRelay tunLen).1 = false ∧
    (tick selectRet false hasServer hasRelay tunLen).2 =
      tickBody hasServer hasRelay tunLen ∧
    (hasServer = true → hasRelay = true →
      (tickBody hasServer hasRelay tunLen).indexOf Ev.serverProcessPacket <
        (tickBody hasServer hasRelay tunLen).indexOf Ev.relayProcess) ∧
    (hasRelay = true →
      (tickBody hasServer hasRelay tunLen).indexOf Ev.relayProcess <
        (tickBody hasServer hasRelay tunLen).indexOf Ev.tunnelReceivePacket ∧
      (tunLen > 0 →
        (tickBody hasServer hasRelay tunLen).indexOf Ev.tunnelReceivePacket <
          (tickBody hasServer hasRelay tunLen).indexOf Ev.relaySendPacket ∧
        (tickBody hasServer hasRelay tunLen).indexOf Ev.relaySendPacket <
          (tickBody hasServer hasRelay tunLen).indexOf Ev.relayReceivePacket) ∧
      (tickBody hasServer hasRelay tunLen).indexOf Ev.tunnelReceivePacket <
        (tickBody hasServer hasRelay tunLen).indexOf Ev.relayReceivePacket) := by
  have hnoexit : loopExits selectRet false = false := by
    unfold loopExits
    have : decide (selectRet < 0) = false := decide_eq_false (by omega)
    simp [this]
  refine ⟨?_, ?_, ?_, ?_⟩
  · simp [tick, hnoexit]
  · simp [tick, hnoexit]
  · intro hs hr
    by_cases hlen : tunLen > 0 <;>
      simp [tickBody, hs, hr, hlen, List.indexOf] <;> decide
  · intro hr
    cases hasServer <;> by_cases hlen : tunLen > 0 <;>
      refine ⟨?_, fun h => ⟨?_, ?_⟩, ?_⟩ <;>
        simp [tickBody, hr, hlen, List.indexOf] <;>
        first
          | decide
          | (exact absurd h (by omega))

/-- Witness for C6 at a concrete tick (select reported data, server and
relay both present, tunnel read returned 5 octets). -/
theorem C6_tick_ordering_witness :
    (tickBody true true 5).indexOf Ev.relayProcess <
      (tickBody true true 5).indexOf Ev.tunnelReceivePacket :=
  ((C6_tick_ordering 1 true true 5 (by decide)).2.2.2 rfl).1

/-! ### Supervisor (miredo.cpp, miredo, lines 559-671) -/

/-- The status `waitpid` reports for the reaped worker. -/
inductive ChildStatus
  | exited (code : Nat)     -- WIFEXITED; `code` is WEXITSTATUS
  | signaled (sig : Nat)    -- WIFSIGNALED; `sig` is WTERMSIG
deriving DecidableEq, Repr

/-- The supervisor's per-generation decision (miredo.cpp, lines 635-665),
computed after the child is reaped: `should_exit` wins, then
`should_reload` (value 2 = repeat), then the child's status — a normal exit
yields `retval != 0` (0 or 1), death by signal yields 2 (crash-restart). -/
def generationDecision (shouldExitV shouldReloadV : Nat) (st : ChildStatus) :
    Int :=
  if shouldExitV ≠ 0 then 0
  else if shouldReloadV ≠ 0 then 2
  else match st with
    | ChildStatus.exited c => if c ≠ 0 then 1 else 0
    | ChildStatus.signaled _ => 2

/-- What one generation of the `do … while (retval == 2)` loop produces.
`earlyFail` covers the `continue` paths with `retval = 1` (InitSignals,
ParseConf or fork failure); `ran` is a generation that forked and reaped a
worker, with the final values of the two signal variables. -/
inductive GenOutcome
  | earlyFail
  | ran (shouldExitV shouldReloadV : Nat) (st : ChildStatus)

/-- The `retval` a generation leaves in the loop variable. -/
def genRetval : GenOutcome → Int
  | GenOutcome.earlyFail => 1
  | GenOutcome.ran e r st => generationDecision e r st

/-- The supervisor loop: repeats while `retval == 2`, and finally returns
`-retval` (miredo.cpp, lines 667-670).  `none` means the given generation
sequence never left the loop. -/
def miredoLoop : List GenOutcome → Option Int
  | [] => none
  | g :: gs =>
    if genRetval g = 2 then miredoLoop gs else some (-(genRetval g))

theorem genRetval_nonneg (g : GenOutcome) : 0 ≤ genRetval g ∧ genRetval g ≤ 2 := by
  cases g with
  | earlyFail => exact ⟨by decide, by decide⟩
  | ran e r st =>
    by_cases he : e = 0
    · by_cases hr : r = 0
      · cases st with
        | exited c =>
          by_cases hc : c = 0 <;>
            simp [genRetval, generationDecision, he, hr, hc]
        | signaled s =>
          simp [genRetval, generationDecision, he, hr]
      · simp [genRetval, generationDecision, he, hr]
    · simp [genRetval, generationDecision, he]

/-- C4: after the worker is reaped the supervisor follows the priority
exit > reload > child-status: a non-zero `should_exit` makes `miredo` return
0; else a non-zero `should_reload` repeats with the next generation; else a
normal child exit ends the loop with a return value that is non-zero exactly
when the child's exit code was non-zero; else death by signal repeats; and
no terminating run of the loop ever returns the internal reload value 2. -/
theorem C4_supervisor_priority :
    (∀ e r st gs, e ≠ 0 →
      miredoLoop (GenOutcome.ran e r st :: gs) = some 0) ∧
    (∀ r st gs, r ≠ 0 →
      miredoLoop (GenOutcome.ran 0 r st :: gs) = miredoLoop gs) ∧
    (∀ c gs,
      miredoLoop (GenOutcome.ran 0 0 (ChildStatus.exited c) :: gs) =
        some (if c = 0 then 0 else -1) ∧
      ((if c = 0 then (0 : Int) else -1) ≠ 0 ↔ c ≠ 0)) ∧
    (∀ s gs,
      miredoLoop (GenOutcome.ran 0 0 (ChildStatus.signaled s) :: gs) =
        miredoLoop gs) ∧
    (∀ gs v, miredoLoop gs = some v → v ≠ 2) := by
  refine ⟨?_, ?_, ?_, ?_, ?_⟩
  · intro e r st gs he
    simp [miredoLoop, genRetval, generationDecision, he]
  · intro r st gs hr
    simp [miredoLoop, genRetval, generationDecision, hr]
  · intro c gs
    by_cases hc : c = 0 <;>
      simp [miredoLoop, genRetval, generationDecision, hc]
  · intro s gs
    simp [miredoLoop, genRetval, generationDecision]
  · intro gs
    induction gs with
    | nil => intro v h; simp [miredoLoop] at h
    | cons g gs ih =>
      intro v h
      simp only [miredoLoop] at h
      by_cases hg : genRetval g = 2
      · rw [if_pos hg] at h
        exact ih v h
      · rw [if_neg hg] at h
        have hv : v = -(genRetval g) := (Option.some.inj h).symm
        have := genRetval_nonneg g
        omega

/-- Witness for C4 at concrete generations. -/
theorem C4_supervisor_priority_witness :
    miredoLoop [GenOutcome.ran 15 0 (ChildStatus.exited 3)] = some 0 :=
  C4_supervisor_priority.1 15 0 (ChildStatus.exited 3) [] (by decide)

/-! ### Signal handlers (miredo.cpp, lines 88-116 and 435-467) -/

/-- The process-global state the handlers touch: the two signal variables,
the bridge write end `signalfd[1]` (`-1` once closed), and the sequence of
signal numbers written to the bridge (each `write` pushes the 4 octets of
one signal number; the embedding records the number). -/
structure SigState where
  should_exit : Nat
  should_reload : Nat
  wfd : Int
  bridge : List Nat
deriving DecidableEq, Repr

/-- `exit_handler` (miredo.cpp, lines 97-105): returns at once when
`should_exit` is already non-zero or the write end is closed; otherwise
writes the signal number to the bridge and records it in `should_exit`. -/
def exit_handler (s : SigState) (signum : Nat) : SigState :=
  if s.should_exit ≠ 0 ∨ s.wfd = -1 then s
  else { s with bridge := s.bridge ++ [signum], should_exit := signum }

/-- `reload_handler` (miredo.cpp, lines 108-116). -/
def reload_handler (s : SigState) (signum : Nat) : SigState :=
  if s.should_reload ≠ 0 ∨ s.wfd = -1 then s
  else { s with bridge := s.bridge ++ [signum], should_reload := signum }

def SIGHUP : Nat := 1
def SIGINT : Nat := 2
def SIGQUIT : Nat := 3
def SIGTERM : Nat := 15

/-- Signal dispatch as installed by `InitSignals` (miredo.cpp, lines
448-464): INT, QUIT and TERM run `exit_handler`; HUP runs `reload_handler`;
PIPE, USR1, USR2 (and everything else) are ignored. -/
def deliverSignal (s : SigState) (signum : Nat) : SigState :=
  if signum = SIGINT ∨ signum = SIGQUIT ∨ signum = SIGTERM then
    exit_handler s signum
  else if signum = SIGHUP then reload_handler s signum
  else s

/-- The state `InitSignals` (miredo.cpp, lines 440-446) establishes at the
start of a generation: a fresh pipe (no bytes written yet) and both
variables cleared to zero. -/
def initSignalsState (wfd : Int) : SigState := ⟨0, 0, wfd, []⟩

/-- Delivering a sequence of signals. -/
def deliverAll (s : SigState) (sigs : List Nat) : SigState :=
  sigs.foldl deliverSignal s

/-- The number of bridge writes the handlers should have performed: one per
signal class whose variable is set. -/
def writeCount (s : SigState) : Nat :=
  (if s.should_exit = 0 then 0 else 1) +
    (if s.should_reload = 0 then 0 else 1)

theorem deliverSignal_writeCount (s : SigState) (x : Nat)
    (h : s.bridge.length = writeCount s) :
    (deliverSignal s x).bridge.length = writeCount (deliverSignal s x) := by
  unfold deliverSignal
  by_cases hx : x = SIGINT ∨ x = SIGQUIT ∨ x = SIGTERM
  · rw [if_pos hx]
    unfold exit_handler
    by_cases hcond : s.should_exit ≠ 0 ∨ s.wfd = -1
    · rw [if_pos hcond]; exact h
    · rw [if_neg hcond]
      push_neg at hcond
      have hxne : x ≠ 0 := by
        rcases hx with h1 | h1 | h1 <;> simp [h1, SIGINT, SIGQUIT, SIGTERM]
      simp only [writeCount, List.length_append] at h ⊢
      simp [hcond.1] at h
      simp [hxne, h]
      omega
  · rw [if_neg hx]
    by_cases hx1 : x = SIGHUP
    · rw [if_pos hx1]
      unfold reload_handler
      by_cases hcond : s.should_reload ≠ 0 ∨ s.wfd = -1
      · rw [if_pos hcond]; exact h
      · rw [if_neg hcond]
        push_neg at hcond
        have hxne : x ≠ 0 := by simp [hx1, SIGHUP]
        simp only [writeCount, List.length_append] at h ⊢
        simp [hcond.1] at h
        simp [hxne, h]
    · rw [if_neg hx1]; exact h

theorem deliverAll_writeCount (sigs : List Nat) :
    ∀ s : SigState, s.bridge.length = writeCount s →
      (deliverAll s sigs).bridge.length = writeCount (deliverAll s sigs) := by
  induction sigs with
  | nil => intro s h; exact h
  | cons x xs ih =>
    intro s h
    have hstep := deliverSignal_writeCount s x h
    simpa [deliverAll, List.foldl] using ih (deliverSignal s x) hstep

/-- C7: within a generation the supervisor clears both variables at the
start (InitSignals); from that state, after any delivered signal sequence
the number of bridge writes equals one per signal class whose variable is
set — so each handler wrote at most once; and a second signal of a class
whose variable is already set is dropped entirely, with no write and no
change of state. -/
theorem C7_handlers_once :
    (∀ w : Int, (initSignalsState w).should_exit = 0 ∧
      (initSignalsState w).should_reload = 0 ∧
      (initSignalsState w).bridge = []) ∧
    (∀ (w : Int) (sigs : List Nat),
      (deliverAll (initSignalsState w) sigs).bridge.length =
        writeCount (deliverAll (initSignalsState w) sigs) ∧
      (deliverAll (initSignalsState w) sigs).bridge.length ≤ 2) ∧
    (∀ (s : SigState) (x : Nat), s.should_exit ≠ 0 →
      (x = SIGINT ∨ x = SIGQUIT ∨ x = SIGTERM) → deliverSignal s x = s) ∧
    (∀ s : SigState, s.should_reload ≠ 0 → deliverSignal s SIGHUP = s) := by
  refine ⟨?_, ?_, ?_, ?_⟩
  · intro w; exact ⟨rfl, rfl, rfl⟩
  · intro w sigs
    have h0 : (initSignalsState w).bridge.length = writeCount (initSignalsState w) := by
      simp [initSignalsState, writeCount]
    have h := deliverAll_writeCount sigs (initSignalsState w) h0
    refine ⟨h, ?_⟩
    rw [h]
    unfold writeCount
    split <;> split <;> omega
  · intro s x hs hx
    unfold deliverSignal
    rw [if_pos hx]
    unfold exit_handler
    rw [if_pos (Or.inl hs)]
  · intro s hs
    unfold deliverSignal
    rw [if_neg (by decide), if_pos rfl]
    unfold reload_handler
    rw [if_pos (Or.inl hs)]

/-- Witness for C7 at a concrete state and signal sequence. -/
theorem C7_handlers_once_witness :
    deliverSignal ⟨15, 0, 4, [15]⟩ 2 = ⟨15, 0, 4, [15]⟩ :=
  C7_handlers_once.2.2.1 ⟨15, 0, 4, [15]⟩ 2 (by decide) (Or.inl rfl)
